import Mathlib

/-!
Verification of the image2md converter library: a shallow embedding of the
converter abstraction (factory/registry, provenance tracking, fence-stripping
normalization, sidecar JSON writing) together with theorems settling the
specified properties.

Paths are modelled as a directory component list plus a stem and extension;
the filesystem is an explicit list of existing directories and files.
JSON documents are modelled as a tree; "the credential appears in the
document" is expressed as substring occurrence in some key or string leaf.
-/

namespace Image2md

/-- Substring occurrence: `c` occurs (as a contiguous run of characters)
inside `s`. Models "the literal value appears in the serialized text". -/
def strOccurs (c s : String) : Prop := c.toList <:+: s.toList

instance (c s : String) : Decidable (strOccurs c s) :=
  inferInstanceAs (Decidable (c.toList <:+: s.toList))

/-- Python `str.lower()` over the character list (ASCII lowering). -/
def pyLower (s : String) : String := String.mk (s.toList.map Char.toLower)

/-- Boolean test mirroring Python `str.startswith`. -/
def pyStartsWith (s p : String) : Bool := p.toList.isPrefixOf s.toList

/-- Boolean test mirroring Python `str.endsWith`. -/
def pyEndsWith (s p : String) : Bool := p.toList.isSuffixOf s.toList

/-- Python slice `s[a:-b]` on a character list: drop `a` characters from the
front and `b` characters from the back (empty when the ranges cross). -/
def pySliceDrop (l : List Char) (a b : Nat) : List Char :=
  (l.take (l.length - b)).drop a

/-- Fence-stripping normalization as duplicated across the LLM-backed
converters: strip a leading three-backtick fence tagged markdown (with its
newline) and the trailing newline-plus-fence, else a bare fence pair with the
same newline adjacency, else return the text unchanged. -/
def removeFences (s : String) : String :=
  if pyStartsWith s "```markdown\n" && pyEndsWith s "\n```" then
    ⟨pySliceDrop s.toList 12 4⟩
  else if pyStartsWith s "```\n" && pyEndsWith s "\n```" then
    ⟨pySliceDrop s.toList 4 4⟩
  else s

/-- JSON value tree, the model of the documents the converters serialize. -/
inductive Json where
  | null : Json
  | bool : Bool → Json
  | num : Int → Json
  | str : String → Json
  | arr : List Json → Json
  | obj : List (String × Json) → Json

/-- Truthiness of a JSON value, mirroring Python truthiness of the
corresponding Python value. -/
def Json.truthy : Json → Bool
  | .null => false
  | .bool b => b
  | .num n => n != 0
  | .str s => s ≠ ""
  | .arr l => !l.isEmpty
  | .obj l => !l.isEmpty

mutual

/-- All strings appearing in a JSON document: object keys and string leaves.
A value occurs in the serialized text exactly when it occurs in one of
these (up to JSON escaping and punctuation). -/
def jsonStrings : Json → List String
  | .null => []
  | .bool _ => []
  | .num _ => []
  | .str s => [s]
  | .arr l => jsonStringsArr l
  | .obj l => jsonStringsObj l

/-- Strings of a JSON array's elements. -/
def jsonStringsArr : List Json → List String
  | [] => []
  | j :: l => jsonStrings j ++ jsonStringsArr l

/-- Strings of a JSON object's fields: each key and its value's strings. -/
def jsonStringsObj : List (String × Json) → List String
  | [] => []
  | f :: l => f.1 :: (jsonStrings f.2 ++ jsonStringsObj l)

end

/-- Top-level key membership in a JSON object document. -/
def Json.hasKey : Json → String → Bool
  | .obj l, k => l.any (fun f => f.1 = k)
  | _, _ => false

/-- Python dict update `d[k] = v` on an association list: replace the value
when the key exists, append otherwise. -/
def assocSet {α β : Type} [DecidableEq α] (l : List (α × β)) (k : α) (v : β) :
    List (α × β) :=
  if l.any (fun f => f.1 = k) then
    l.map (fun f => if f.1 = k then (k, v) else f)
  else l ++ [(k, v)]

/-- Python dict lookup `d.get(k)` on an association list. -/
def assocGet {α β : Type} [DecidableEq α] (l : List (α × β)) (k : α) :
    Option β :=
  (l.find? (fun f => f.1 = k)).map (·.2)

/-- Filesystem path, modelled as the directory's component list plus the
final component's stem and extension (extension without the dot; empty when
the name has none). -/
structure FPath where
  dir : List String
  stem : String
  ext : String
deriving DecidableEq, Repr

/-- Model of Python `Path.with_suffix("." ++ e)`: replace the extension. -/
def pyWithSuffix (p : FPath) (e : String) : FPath := { p with ext := e }

/-- Model of Python `Path.name`: the final component including extension. -/
def pathName (p : FPath) : String :=
  p.stem ++ (if p.ext = "" then "" else "." ++ p.ext)

/-- Model of Python `Path.suffix`: the extension with its leading dot. -/
def pySuffix (p : FPath) : String :=
  if p.ext = "" then "" else "." ++ p.ext

/-- Rendering of a path for error messages (Python `str(path)`). -/
def pathStr (p : FPath) : String :=
  String.intercalate "/" (p.dir ++ [pathName p])

/-- Filesystem state: the set of existing directories and a map from file
paths to their text contents. -/
structure FS where
  dirs : List (List String)
  files : List (FPath × String)
deriving DecidableEq

/-- Does a regular file exist at `p` (Python `path.exists()`)? -/
def pathExists (fs : FS) (p : FPath) : Bool :=
  fs.files.any (fun f => f.1 = p)

/-- Model of `open(p, "w")` followed by a full-buffer write: succeeds only
when the parent directory exists (no implicit directory creation), replacing
any previous contents. -/
def writeText (fs : FS) (p : FPath) (content : String) : Except String FS :=
  if fs.dirs.contains p.dir then
    Except.ok { fs with files := assocSet fs.files p content }
  else
    Except.error ("No such file or directory: " ++ pathStr p)

/-- Model of `Image2MarkdownConverter.save_markdown` from base.py: run the
conversion, default the output path to the image path with extension
replaced by md, write the text there and return the written path. -/
def baseSaveMarkdown (convert : FPath → String) (fs : FS) (image : FPath)
    (outputPath : Option FPath) : Except String (FPath × FS) :=
  let markdownContent := convert image
  let out := outputPath.getD (pyWithSuffix image "md")
  (writeText fs out markdownContent).map (fun fs2 => (out, fs2))

/-! ### Local stub converters (ocr_converter.py, vision_converter.py,
structure_converter.py) -/

/-- Markdown produced by `OCRConverter.convert` (mock content from the
source). -/
def ocrMarkdown (language : String) (image : FPath) : String :=
  "# Content from " ++ pathName image ++
  "\n\nThis text was extracted using OCR (" ++ language ++
  ") from the image.\n\n- First detected text item\n- Second detected text item\n- Third detected text item\n\n> Some quoted text detected in the image\n\n"

/-- Model of `OCRConverter.convert`: no existence check is performed, the
filesystem state is never consulted and the call always succeeds. -/
def ocrConvert (language : String) (fs : FS) (image : FPath) :
    Except String String :=
  Except.ok (ocrMarkdown language image)

/-- Markdown produced by `VisionConverter.convert` (mock content from the
source); `prompt` is defaulted only when `None` (an `is None` check, not
truthiness). -/
def visionMarkdown (modelName : String) (maxTokens : Nat)
    (prompt : Option String) (assumedColors assumedContent : Option String)
    (image : FPath) : String :=
  let pr := prompt.getD
    "Describe the content of this image in detail and format as markdown"
  "# " ++ pathName image ++ " Analysis\n\n## Description\nThis image appears to show a detailed diagram with various components and connections.\n\n## Key Elements\n- Main subject is centered in the frame\n- There appears to be text labels identifying different parts\n- The color scheme is primarily " ++
  assumedColors.getD "blue and white" ++
  "\n\n## Content Summary\nThe image depicts what seems to be a " ++
  assumedContent.getD "technical diagram" ++
  ". \nSeveral key components are visible, including connectors, labels, and structural elements.\n\n## Notes\nThis analysis was generated using the " ++
  modelName ++ " model with a max token limit of " ++ toString maxTokens ++
  ".\nThe prompt used was: \"" ++ pr ++ "\"\n\n"

/-- Model of `VisionConverter.convert`: no existence check, always
succeeds. -/
def visionConvert (modelName : String) (maxTokens : Nat)
    (prompt : Option String) (assumedColors assumedContent : Option String)
    (fs : FS) (image : FPath) : Except String String :=
  Except.ok (visionMarkdown modelName maxTokens prompt assumedColors
    assumedContent image)

/-- Heading rendering loop of `StructureConverter._generate_markdown`: emit
each heading line, consuming one paragraph after each heading while any
remain; returns the emitted parts and the remaining paragraphs. -/
def structureHeadingsPart :
    List (Nat × String) → List String → List String × List String
  | [], paras => ([], paras)
  | (lvl, text) :: hs, paras =>
    let headLine := String.mk (List.replicate lvl '#') ++ " " ++ text ++ "\n"
    match paras with
    | [] =>
      let r := structureHeadingsPart hs []
      (headLine :: r.1, r.2)
    | p :: ps =>
      let r := structureHeadingsPart hs ps
      (headLine :: (p ++ "\n") :: r.1, r.2)

/-- Rendering of one list block from `_generate_markdown`. -/
def structureListPart (ordered : Bool) (items : List String) : List String :=
  let body :=
    if ordered then
      (items.enumFrom 1).map (fun it => toString it.1 ++ ". " ++ it.2 ++ "\n")
    else
      items.map (fun it => "- " ++ it ++ "\n")
  "\n" :: body ++ ["\n"]

/-- Rendering of one table block from `_generate_markdown`. -/
def structureTablePart (headers : List String) (rows : List (List String)) :
    List String :=
  ("| " ++ String.intercalate " | " headers ++ " |\n") ::
  ("| " ++ String.intercalate " | " (List.replicate headers.length "---") ++ " |\n") ::
  rows.map (fun row => "| " ++ String.intercalate " | " row ++ " |\n")
  ++ ["\n"]

/-- Markdown produced by `StructureConverter.convert`: the mock analysis of
`_mock_analyze_image` (fixed headings, paragraphs, lists and tables gated by
the three detect flags) rendered by `_generate_markdown`. -/
def structureMarkdown (detectTables detectHeadings detectLists : Bool)
    (image : FPath) : String :=
  let title := "Document from " ++ image.stem
  let headings : List (Nat × String) :=
    if detectHeadings then [(1, "Main Heading"), (2, "Section 1"), (2, "Section 2")]
    else []
  let paragraphs : List String :=
    ["This is the first paragraph of text extracted from the image.",
     "This is another paragraph with more detailed information."]
  let lists : List (Bool × List String) :=
    if detectLists then
      [(false, ["Item 1", "Item 2", "Item 3"]),
       (true, ["First step", "Second step", "Third step"])]
    else []
  let tables : List (List String × List (List String)) :=
    if detectTables then
      [(["Column 1", "Column 2", "Column 3"],
        [["Data 1A", "Data 1B", "Data 1C"], ["Data 2A", "Data 2B", "Data 2C"]])]
    else []
  let hp := structureHeadingsPart headings paragraphs
  let parts :=
    ("# " ++ title ++ "\n") ::
    ("*Source: " ++ pathName image ++ "*\n") ::
    hp.1 ++ hp.2.map (fun para => para ++ "\n\n")
    ++ (lists.map (fun l => structureListPart l.1 l.2)).flatten
    ++ (tables.map (fun t => structureTablePart t.1 t.2)).flatten
  String.join parts

/-- Model of `StructureConverter.convert`: no existence check, always
succeeds. -/
def structureConvert (detectTables detectHeadings detectLists : Bool)
    (fs : FS) (image : FPath) : Except String String :=
  Except.ok (structureMarkdown detectTables detectHeadings detectLists image)

/-! ### Prompt resolution (llm_converter.py, anthropic_converter.py,
gemini_converter.py) -/

/-- Python `a or b` on an optional string: the default is used when the
override is `None` or empty (falsy). -/
def pyOrStr (v : Option String) (d : String) : String :=
  match v with
  | some s => if s = "" then d else s
  | none => d

/-- Default prompt from `LLMConverter.convert`. -/
def llmDefaultPrompt : String :=
  "Convert this image to well-formatted markdown. Maintain the structure and layout of the document, including proper formatting for headings, lists, tables, and other elements. Output only the markdown content without any explanations. Do NOT wrap your response in markdown code blocks (```). Just provide the clean markdown content directly without any surrounding backticks."

/-- Default prompt `AnthropicConverter.DEFAULT_PROMPT`. -/
def anthropicDefaultPrompt : String :=
  "Convert this image to well-formatted markdown. Maintain the structure and formatting as much as possible, including headings, lists, and tables. Important: Do NOT wrap your response in markdown code blocks (```). Just provide the clean markdown content directly without any surrounding backticks."

/-- Default prompt `GeminiConverter.DEFAULT_PROMPT`. -/
def geminiDefaultPrompt : String :=
  "Convert this image to well-formatted markdown. Maintain the structure and formatting as much as possible, including headings, lists, and tables."

/-- Prompt used by `LLMConverter.convert`: `custom_prompt or default_prompt`. -/
def llmPromptOf (customPrompt : Option String) : String :=
  pyOrStr customPrompt llmDefaultPrompt

/-- Prompt used by `AnthropicConverter.convert`:
`custom_prompt or self.DEFAULT_PROMPT`. -/
def anthropicPromptOf (customPrompt : Option String) : String :=
  pyOrStr customPrompt anthropicDefaultPrompt

/-- Prompt used by `GeminiConverter.convert`:
`custom_prompt or self.DEFAULT_PROMPT`. -/
def geminiPromptOf (customPrompt : Option String) : String :=
  pyOrStr customPrompt geminiDefaultPrompt

/-! ### Media type resolution -/

/-- Extension-based fallback switch shared by
`AnthropicConverter._get_media_type` and `GeminiConverter._get_media_type`,
used when mimetype guessing fails; defaults to PNG. -/
def mediaTypeFromExt (p : FPath) : String :=
  let extension := pyLower (pySuffix p)
  if extension == ".png" then "image/png"
  else if extension == ".jpg" || extension == ".jpeg" then "image/jpeg"
  else if extension == ".gif" then "image/gif"
  else if extension == ".webp" then "image/webp"
  else "image/png"

/-- Model of `AnthropicConverter._get_media_type`; `guessType` stands for the
stdlib `mimetypes.guess_type` table, external to this repository. -/
def anthropicMediaType (guessType : FPath → Option String) (p : FPath) :
    String :=
  match guessType p with
  | some m => m
  | none => mediaTypeFromExt p

/-- Model of `GeminiConverter._get_media_type` (verbatim duplicate of the
Anthropic one). -/
def geminiMediaType (guessType : FPath → Option String) (p : FPath) :
    String :=
  match guessType p with
  | some m => m
  | none => mediaTypeFromExt p

/-- Image data URL built inside `LLMConverter.convert` for the OpenAI
request: the media type is the hardcoded image/jpeg, independent of the
image's actual extension. -/
def llmImageUrl (base64Image : String) : String :=
  "data:image/jpeg;base64," ++ base64Image

/-- Messages array built inside `LLMConverter.convert` for the OpenAI
request. -/
def llmMessages (prompt base64Image : String) : List Json :=
  [Json.obj [("role", Json.str "system"),
     ("content", Json.arr [Json.obj [("type", Json.str "text"),
       ("text", Json.str "You are a document layout specialist that converts images to markdown. Preserve the document structure and layout.")]])],
   Json.obj [("role", Json.str "user"),
     ("content", Json.arr [
       Json.obj [("type", Json.str "text"), ("text", Json.str prompt)],
       Json.obj [("type", Json.str "image_url"),
         ("image_url", Json.obj [("url", Json.str (llmImageUrl base64Image))])]])]]

/-! ### OpenAI converter configuration (LLMConverter.__init__ and the request
parameter selection in LLMConverter.convert). Numeric parameters are carried
as rationals (exact stand-ins for Python's ints and the decimal literals
used for temperatures). -/

/-- Converter state established by `LLMConverter.__init__` (the model,
token-limit and temperature handling; `warned` records whether the
temperature-override warning was printed). -/
structure LLMConfig where
  provider : String
  model : String
  maxTokens : ℚ
  maxCompletionTokens : Option ℚ
  temperature : ℚ
  warned : Bool
deriving DecidableEq

/-- Model of the parameter handling in `LLMConverter.__init__`: the provider
is lowercased, and for OpenAI models whose name starts with the o4- family
prefix the temperature is forced to 1.0, warning when the caller's value
differed. -/
def llmInit (provider model : String) (maxTokens : ℚ)
    (maxCompletionTokens : Option ℚ) (temperature : ℚ) : LLMConfig :=
  let prov := pyLower provider
  let isO4 := prov == "openai" && pyStartsWith model "o4-"
  { provider := prov
    model := model
    maxTokens := maxTokens
    maxCompletionTokens := maxCompletionTokens
    temperature := if isO4 then 1 else temperature
    warned := isO4 && temperature != 1 }

/-- Python `a or b` on an optional number (`None` and `0` are falsy). -/
def pyOrNum (v : Option ℚ) (d : ℚ) : ℚ :=
  match v with
  | some x => if x = 0 then d else x
  | none => d

/-- Per-call keyword lookup `kwargs.get(k, d)` over numeric options. -/
def kwGet (kwargs : List (String × ℚ)) (k : String) (d : ℚ) : ℚ :=
  (assocGet kwargs k).getD d

/-- Token-limit and temperature entries added to `api_params` in
`LLMConverter.convert`: the o4- and gpt-5 families use
max_completion_tokens and omit the temperature parameter; older models use
max_tokens plus an explicit temperature. -/
def llmTokenParams (cfg : LLMConfig) (kwargs : List (String × ℚ)) :
    List (String × ℚ) :=
  if pyStartsWith cfg.model "o4-" || pyStartsWith cfg.model "gpt-5" then
    [("max_completion_tokens",
      kwGet kwargs "max_completion_tokens"
        (pyOrNum cfg.maxCompletionTokens cfg.maxTokens))]
  else
    [("max_tokens", kwGet kwargs "max_tokens" cfg.maxTokens),
     ("temperature", kwGet kwargs "temperature" cfg.temperature)]

/-! ### Sidecar JSON targets and convert outcomes -/

/-- Sidecar decision in `LLMConverter.convert` (and verbatim in the
Anthropic and Gemini converters): the JSON document is written only when
`save_json` is set AND an explicit output path was given. -/
def llmSidecarTarget (saveJson : Bool) (jsonOutputPath : Option FPath) :
    Option FPath :=
  if saveJson && jsonOutputPath.isSome then jsonOutputPath else none

/-- Sidecar decision in `AzureDocumentConverter.convert`: when `save_json`
is set, a missing output path is defaulted to the image path with its
extension replaced by json. -/
def azureSidecarTarget (saveJson : Bool) (jsonOutputPath : Option FPath)
    (image : FPath) : Option FPath :=
  if saveJson then
    some (jsonOutputPath.getD (pyWithSuffix image "json"))
  else none

/-- Outcome of `LLMConverter.convert` given the provider's raw text
response: the existence guard, fence-stripping normalization of the returned
markdown, and the sidecar path written (if any). -/
def llmConvert (fs : FS) (image : FPath) (response : String)
    (saveJson : Bool) (jsonOutputPath : Option FPath) :
    Except String (String × Option FPath) :=
  if !pathExists fs image then
    Except.error ("Image file not found: " ++ pathStr image)
  else
    Except.ok (removeFences response, llmSidecarTarget saveJson jsonOutputPath)

/-- Outcome of `AnthropicConverter.convert` (same guard, normalization and
sidecar rule as the OpenAI converter). -/
def anthropicConvert (fs : FS) (image : FPath) (response : String)
    (saveJson : Bool) (jsonOutputPath : Option FPath) :
    Except String (String × Option FPath) :=
  if !pathExists fs image then
    Except.error ("Image file not found: " ++ pathStr image)
  else
    Except.ok (removeFences response, llmSidecarTarget saveJson jsonOutputPath)

/-- Outcome of `GeminiConverter.convert`: existence guard and sidecar rule
as above, but the response text is returned without fence stripping. -/
def geminiConvert (fs : FS) (image : FPath) (response : String)
    (saveJson : Bool) (jsonOutputPath : Option FPath) :
    Except String (String × Option FPath) :=
  if !pathExists fs image then
    Except.error ("Image file not found: " ++ pathStr image)
  else
    Except.ok (response, llmSidecarTarget saveJson jsonOutputPath)

/-- Outcome of `AzureDocumentConverter.convert`: existence guard, the
analysis result's content returned unmodified, and the Azure sidecar rule
with its defaulted path. -/
def azureConvert (fs : FS) (image : FPath) (resultContent : String)
    (saveJson : Bool) (jsonOutputPath : Option FPath) :
    Except String (String × Option FPath) :=
  if !pathExists fs image then
    Except.error ("Image file not found: " ++ pathStr image)
  else
    Except.ok (resultContent, azureSidecarTarget saveJson jsonOutputPath image)

/-! ### Factory / registry (factory.py) -/

/-- Converter implementations that can populate the registry. -/
inductive ConvClass where
  | ocrConv
  | visionConv
  | structureConv
  | azureConv
  | llmConv
  | anthropicConv
  | geminiConv
  | customConv (name : String)
deriving DecidableEq, Repr

/-- Which optional backend SDKs imported successfully (the module-level
AZURE_AVAILABLE / LLM_AVAILABLE / ANTHROPIC_AVAILABLE / GEMINI_AVAILABLE
flags). -/
structure FactoryConfig where
  azureAvailable : Bool
  llmAvailable : Bool
  anthropicAvailable : Bool
  geminiAvailable : Bool
deriving DecidableEq, Repr

/-- Initial `Image2MarkdownFactory._converters` registry: the three local
stubs always, plus each optional backend only when its SDK is available. -/
def builtinConverters (c : FactoryConfig) : List (String × ConvClass) :=
  [("ocr", ConvClass.ocrConv), ("vision", ConvClass.visionConv),
   ("structure", ConvClass.structureConv)]
  ++ (if c.azureAvailable then [("azure", ConvClass.azureConv)] else [])
  ++ (if c.llmAvailable then [("llm", ConvClass.llmConv)] else [])
  ++ (if c.anthropicAvailable then [("anthropic", ConvClass.anthropicConv)] else [])
  ++ (if c.geminiAvailable then [("gemini", ConvClass.geminiConv)] else [])

/-- Errors raised by `Image2MarkdownFactory.get_converter`. -/
inductive FactoryError where
  | importErr (msg : String)
  | valueErr (msg : String)
deriving DecidableEq, Repr

/-- Install-guidance message raised for the azure key without the SDK. -/
def azureInstallMsg : String :=
  "Azure Document Intelligence SDK is not installed. Please install it with: pip install azure-ai-documentintelligence>=1.0.0"

/-- Install-guidance message raised for the llm key without the SDK. -/
def llmInstallMsg : String :=
  "OpenAI SDK is not installed. Please install it with: pip install openai>=1.0.0"

/-- Install-guidance message raised for the anthropic key without the SDK. -/
def anthropicInstallMsg : String :=
  "Anthropic SDK is not installed. Please install it with: pip install anthropic>=0.51.0"

/-- Install-guidance message raised for the gemini key without the SDK. -/
def geminiInstallMsg : String :=
  "Google Generative AI SDK is not installed. Please install it with: pip install google-generativeai>=0.3.0"

/-- Not-found message raised on an unknown registry key. -/
def unknownConverterMsg (k : String) (registry : List (String × ConvClass)) :
    String :=
  "Unknown converter type: " ++ k ++ ". Available types: " ++
  String.intercalate ", " (registry.map (·.1))

/-- Model of `Image2MarkdownFactory.get_converter`: lowercase the key, raise
ImportError for each of the four conditional backend names whose SDK is
absent, then look the key up in the registry, raising the ValueError that
lists the registered keys when absent. The o4- keyword-renaming special
case touches only constructor arguments, which this model does not carry. -/
def getConverter (c : FactoryConfig) (registry : List (String × ConvClass))
    (converterType : String) : Except FactoryError ConvClass :=
  let k := pyLower converterType
  if k == "azure" && !c.azureAvailable then
    Except.error (FactoryError.importErr azureInstallMsg)
  else if k == "llm" && !c.llmAvailable then
    Except.error (FactoryError.importErr llmInstallMsg)
  else if k == "anthropic" && !c.anthropicAvailable then
    Except.error (FactoryError.importErr anthropicInstallMsg)
  else if k == "gemini" && !c.geminiAvailable then
    Except.error (FactoryError.importErr geminiInstallMsg)
  else
    match assocGet registry k with
    | some cls => Except.ok cls
    | none => Except.error (FactoryError.valueErr (unknownConverterMsg k registry))

/-! ### Provenance builders -/

/-- Python `str.capitalize`: first character uppercased, the rest
lowercased. -/
def pyCapitalize (s : String) : String :=
  match s.toList with
  | [] => ""
  | c :: cs => String.mk (c.toUpper :: cs.map Char.toLower)

/-- JSON encoding of an optional string (`None` becomes null). -/
def optStr : Option String → Json
  | some s => Json.str s
  | none => Json.null

/-- Credential filter shared by every `_create_provenance`:
`{k: v for k, v in params.items() if k not in ["api_key"]}`. -/
def filterApiKey (params : List (String × Json)) : List (String × Json) :=
  params.filter (fun f => f.1 != "api_key")

/-- Recorded conversion parameters of the OpenAI/Anthropic/Gemini
provenance: credential filtered out, then the prompt injected under the
prompt key. -/
def llmSafeParams (params : List (String × Json)) (prompt : String) :
    List (String × Json) :=
  assocSet (filterApiKey params) "prompt" (Json.str prompt)

/-- Provenance document of `LLMConverter._create_provenance` serialized via
`ProvenenanceInfo.as_dict`. -/
def createProvenanceLLM (timestamp model : String)
    (modelVersion : Option String) (provider : String)
    (systemInfo : List (String × String)) (params : List (String × Json))
    (prompt : String) : Json :=
  Json.obj [
    ("timestamp", Json.str timestamp),
    ("model", Json.str model),
    ("model_version", optStr modelVersion),
    ("provider", Json.str (pyCapitalize provider)),
    ("system_info", Json.obj (systemInfo.map (fun f => (f.1, Json.str f.2)))),
    ("conversion_params", Json.obj (llmSafeParams params prompt))]

/-- Provenance document of `AnthropicConverter._create_provenance`
serialized via `AnthropicProvenance.as_dict`. -/
def createProvenanceAnthropic (timestamp model : String)
    (modelVersion requestId : Option String)
    (systemInfo : List (String × String)) (params : List (String × Json))
    (prompt : String) : Json :=
  Json.obj [
    ("timestamp", Json.str timestamp),
    ("model", Json.str model),
    ("model_version", optStr modelVersion),
    ("provider", Json.str "Anthropic"),
    ("model_family", Json.str "Claude"),
    ("request_id", optStr requestId),
    ("system_info", Json.obj (systemInfo.map (fun f => (f.1, Json.str f.2)))),
    ("conversion_params", Json.obj (llmSafeParams params prompt))]

/-- Provenance document of `GeminiConverter._create_provenance` serialized
via `GeminiProvenance.as_dict`. -/
def createProvenanceGemini (timestamp model : String)
    (modelVersion requestId : Option String)
    (systemInfo : List (String × String)) (params : List (String × Json))
    (prompt : String) : Json :=
  Json.obj [
    ("timestamp", Json.str timestamp),
    ("model", Json.str model),
    ("model_version", optStr modelVersion),
    ("provider", Json.str "Google"),
    ("model_family", Json.str "Gemini"),
    ("request_id", optStr requestId),
    ("system_info", Json.obj (systemInfo.map (fun f => (f.1, Json.str f.2)))),
    ("conversion_params", Json.obj (llmSafeParams params prompt))]

/-- Endpoint masking step of `AzureDocumentConverter._create_provenance`:
when a truthy endpoint value is present it is replaced by the masked URL
(`maskUrl` stands for the urlparse-based scheme-and-host rewriting, stdlib
behavior external to this repository; it only ever applies to the string
endpoint value). -/
def azureSafeParams (maskUrl : String → String)
    (params : List (String × Json)) : List (String × Json) :=
  let safe := filterApiKey params
  if ((assocGet safe "endpoint").getD Json.null).truthy then
    safe.map (fun f =>
      if f.1 == "endpoint" then
        (f.1, match f.2 with
              | Json.str s => Json.str (maskUrl s)
              | v => v)
      else f)
  else safe

/-- Provenance document of `AzureDocumentConverter._create_provenance`
serialized via `AzureProvenanceInfo.as_dict`. -/
def createProvenanceAzure (timestamp modelId apiVersion : String)
    (systemInfo : List (String × String)) (maskUrl : String → String)
    (params : List (String × Json)) : Json :=
  Json.obj [
    ("timestamp", Json.str timestamp),
    ("model_id", Json.str modelId),
    ("api_version", Json.str apiVersion),
    ("system_info", Json.obj (systemInfo.map (fun f => (f.1, Json.str f.2)))),
    ("conversion_params", Json.obj (azureSafeParams maskUrl params))]

/-! ### Sidecar JSON documents -/

/-- Absence of the credential from a JSON document: no key and no string
leaf has the literal credential value occurring in it. -/
def credAbsent (cred : String) (j : Json) : Prop :=
  ∀ s ∈ jsonStrings j, ¬ strOccurs cred s

instance (cred : String) (j : Json) : Decidable (credAbsent cred j) :=
  List.decidableBAll _ _

/-- Absence of the credential from every string of a list. -/
def noCredIn (cred : String) (l : List String) : Prop :=
  ∀ s ∈ l, ¬ strOccurs cred s

instance (cred : String) (l : List String) : Decidable (noCredIn cred l) :=
  List.decidableBAll _ _

/-- The credential occurs in the parameter map only under the api_key key:
every other entry's key and value are free of it. -/
def credSafeParams (cred : String) (params : List (String × Json)) : Prop :=
  ∀ f ∈ params, f.1 ≠ "api_key" →
    ¬ strOccurs cred f.1 ∧ credAbsent cred f.2

instance (cred : String) (params : List (String × Json)) :
    Decidable (credSafeParams cred params) :=
  List.decidableBAll _ _

/-- The credential occurs nowhere in the system-info map. -/
def credSafeSysInfo (cred : String) (si : List (String × String)) : Prop :=
  ∀ f ∈ si, ¬ strOccurs cred f.1 ∧ ¬ strOccurs cred f.2

instance (cred : String) (si : List (String × String)) :
    Decidable (credSafeSysInfo cred si) :=
  List.decidableBAll _ _

/-- The credential does not occur in an optional string field. -/
def credSafeOpt (cred : String) : Option String → Prop
  | some v => ¬ strOccurs cred v
  | none => True

instance (cred : String) : (o : Option String) →
    Decidable (credSafeOpt cred o)
  | some v => inferInstanceAs (Decidable (¬ strOccurs cred v))
  | none => inferInstanceAs (Decidable True)

/-- Fixed strings (key names) of the OpenAI provenance document. -/
def provFixedLLM : List String :=
  ["timestamp", "model", "model_version", "provider", "system_info",
   "conversion_params", "prompt"]

/-- Fixed strings (key names and constant values) of the Anthropic
provenance document. -/
def provFixedAnthropic : List String :=
  ["timestamp", "model", "model_version", "provider", "model_family",
   "request_id", "system_info", "conversion_params", "prompt",
   "Anthropic", "Claude"]

/-- Fixed strings (key names and constant values) of the Gemini provenance
document. -/
def provFixedGemini : List String :=
  ["timestamp", "model", "model_version", "provider", "model_family",
   "request_id", "system_info", "conversion_params", "prompt",
   "Google", "Gemini"]

/-- Fixed strings (key names) of the Azure provenance document. -/
def provFixedAzure : List String :=
  ["timestamp", "model_id", "api_version", "system_info",
   "conversion_params"]

/-! ### Concrete fixtures used by witnesses and counterexamples -/

/-- A sample image path `img.png` in the root directory. -/
def sampleImage : FPath := { dir := [], stem := "img", ext := "png" }

/-- A filesystem holding the root directory and the sample image. -/
def sampleFS : FS := { dirs := [[]], files := [(sampleImage, "IMAGEBYTES")] }

/-- A path not present in `sampleFS`. -/
def missingImage : FPath := { dir := [], stem := "ghost", ext := "png" }

/-- An output path whose parent directory does not exist in `sampleFS`. -/
def missingDirOut : FPath :=
  { dir := ["nonexistent"], stem := "out", ext := "md" }

/-- Factory configuration with every optional backend SDK absent. -/
def noBackends : FactoryConfig :=
  { azureAvailable := false, llmAvailable := false,
    anthropicAvailable := false, geminiAvailable := false }

/-! ## Theorems -/

/-- C6 counterexample: fence stripping is not idempotent. A document whose
body is itself a fenced block loses one fence level per application, so a
second application changes the result of the first. -/
theorem c6_counterexample :
    removeFences (removeFences "```markdown\n```markdown\nA\n```\n```") ≠
      removeFences "```markdown\n```markdown\nA\n```\n```" := by
  decide

/-- Claim C6 (amended): fence stripping is exact on the given examples and
returns any input matching neither fence pattern unchanged, but it is not
idempotent in general (an input whose stripped body again matches a fence
pattern is stripped further by a second application). -/
theorem c6_fence_stripping :
    removeFences "```markdown\nX\n```" = "X" ∧
    removeFences "```\nX\n```" = "X" ∧
    ∀ s : String,
      (pyStartsWith s "```markdown\n" && pyEndsWith s "\n```") = false →
      (pyStartsWith s "```\n" && pyEndsWith s "\n```") = false →
      removeFences s = s := by
  refine ⟨by decide, by decide, ?_⟩
  intro s h1 h2
  simp [removeFences, h1, h2]

/-- Witness for `c6_fence_stripping` at a concrete non-fenced input. -/
theorem c6_fence_stripping_witness :
    (pyStartsWith "plain text" "```markdown\n" &&
      pyEndsWith "plain text" "\n```") = false ∧
    (pyStartsWith "plain text" "```\n" && pyEndsWith "plain text" "\n```") = false ∧
    removeFences "plain text" = "plain text" :=
  ⟨by decide, by decide,
   c6_fence_stripping.2.2 "plain text" (by decide) (by decide)⟩

/-- Claim C9 (confirmed): for each LLM-backed converter, an empty-string
custom prompt is falsy, so the converter silently falls back to its default
prompt constant (which is itself nonempty, hence the empty override is never
used as the prompt). -/
theorem c9_empty_prompt_fallback :
    llmPromptOf (some "") = llmDefaultPrompt ∧
    anthropicPromptOf (some "") = anthropicDefaultPrompt ∧
    geminiPromptOf (some "") = geminiDefaultPrompt ∧
    llmDefaultPrompt ≠ "" ∧
    anthropicDefaultPrompt ≠ "" ∧
    geminiDefaultPrompt ≠ "" := by
  refine ⟨rfl, rfl, rfl, by decide, by decide, by decide⟩

/-- Claim C10 (confirmed): with save_json requested but no sidecar path, the
OpenAI, Anthropic and Gemini converters return the (normalized) markdown and
write no sidecar at all, while the Azure converter defaults the sidecar path
to the image path with its extension replaced by json. -/
theorem c10_sidecar_default :
    (∀ fs image response, pathExists fs image = true →
      llmConvert fs image response true none =
        Except.ok (removeFences response, none)) ∧
    (∀ fs image response, pathExists fs image = true →
      anthropicConvert fs image response true none =
        Except.ok (removeFences response, none)) ∧
    (∀ fs image response, pathExists fs image = true →
      geminiConvert fs image response true none =
        Except.ok (response, none)) ∧
    (∀ fs image resultContent, pathExists fs image = true →
      azureConvert fs image resultContent true none =
        Except.ok (resultContent, some (pyWithSuffix image "json"))) := by
  refine ⟨?_, ?_, ?_, ?_⟩ <;> intro fs image r h <;>
    simp [llmConvert, anthropicConvert, geminiConvert, azureConvert, h,
      llmSidecarTarget, azureSidecarTarget]

/-- Witness for `c10_sidecar_default` on the sample filesystem. -/
theorem c10_sidecar_default_witness :
    pathExists sampleFS sampleImage = true ∧
    llmConvert sampleFS sampleImage "# Doc" true none =
      Except.ok (removeFences "# Doc", none) ∧
    azureConvert sampleFS sampleImage "# Doc" true none =
      Except.ok ("# Doc", some (pyWithSuffix sampleImage "json")) :=
  ⟨by decide,
   c10_sidecar_default.1 sampleFS sampleImage "# Doc" (by decide),
   c10_sidecar_default.2.2.2 sampleFS sampleImage "# Doc" (by decide)⟩

/-- C5 counterexample: the OCR stub converter performs no existence check;
on a path absent from the filesystem it succeeds with its mock markdown
instead of failing with a file-not-found error. -/
theorem c5_counterexample :
    pathExists sampleFS missingImage = false ∧
    ocrConvert "eng" sampleFS missingImage =
      Except.ok (ocrMarkdown "eng" missingImage) := by
  exact ⟨by decide, rfl⟩

/-- Claim C5 (amended): the OpenAI, Anthropic, Gemini and Azure converters
fail with a file-not-found error before any backend work when the image path
does not exist; the local stub converters (OCR, vision, structure) perform
no existence check and succeed on any path. -/
theorem c5_existence_check :
    (∀ fs image response saveJson jsonOutputPath,
      pathExists fs image = false →
      llmConvert fs image response saveJson jsonOutputPath =
        Except.error ("Image file not found: " ++ pathStr image)) ∧
    (∀ fs image response saveJson jsonOutputPath,
      pathExists fs image = false →
      anthropicConvert fs image response saveJson jsonOutputPath =
        Except.error ("Image file not found: " ++ pathStr image)) ∧
    (∀ fs image response saveJson jsonOutputPath,
      pathExists fs image = false →
      geminiConvert fs image response saveJson jsonOutputPath =
        Except.error ("Image file not found: " ++ pathStr image)) ∧
    (∀ fs image resultContent saveJson jsonOutputPath,
      pathExists fs image = false →
      azureConvert fs image resultContent saveJson jsonOutputPath =
        Except.error ("Image file not found: " ++ pathStr image)) ∧
    (∀ language fs image,
      ocrConvert language fs image = Except.ok (ocrMarkdown language image)) ∧
    (∀ modelName maxTokens prompt assumedColors assumedContent fs image,
      visionConvert modelName maxTokens prompt assumedColors assumedContent
        fs image =
      Except.ok (visionMarkdown modelName maxTokens prompt assumedColors
        assumedContent image)) ∧
    (∀ detectTables detectHeadings detectLists fs image,
      structureConvert detectTables detectHeadings detectLists fs image =
        Except.ok (structureMarkdown detectTables detectHeadings detectLists
          image)) := by
  refine ⟨?_, ?_, ?_, ?_, ?_, ?_, ?_⟩
  · intro fs image r sj jp h
    simp [llmConvert, h]
  · intro fs image r sj jp h
    simp [anthropicConvert, h]
  · intro fs image r sj jp h
    simp [geminiConvert, h]
  · intro fs image r sj jp h
    simp [azureConvert, h]
  · intro language fs image; rfl
  · intro a b c d e fs image; rfl
  · intro a b c fs image; rfl

/-- Witness for `c5_existence_check` on a missing path. -/
theorem c5_existence_check_witness :
    pathExists sampleFS missingImage = false ∧
    llmConvert sampleFS missingImage "# Doc" false none =
      Except.error ("Image file not found: " ++ pathStr missingImage) :=
  ⟨by decide,
   c5_existence_check.1 sampleFS missingImage "# Doc" false none (by decide)⟩

/-- C4 counterexample: `save_markdown` does not create missing parent
directories — with an explicit output path whose parent directory does not
exist, the write fails instead of creating the directory and returning the
path. -/
theorem c4_counterexample :
    baseSaveMarkdown (fun _ => "# Test Content") sampleFS sampleImage
      (some missingDirOut) =
      Except.error ("No such file or directory: " ++ pathStr missingDirOut) := by
  rfl

/-- Claim C4 (amended): `save_markdown` converts and writes the markdown to
the explicit output path, or to the image path with its extension replaced
by md when none is given, and returns the path written — provided the output
path's parent directory already exists; missing parent directories are NOT
created and make the write fail. -/
theorem c4_save_markdown :
    ∀ (convert : FPath → String) (fs : FS) (image : FPath)
      (outputPath : Option FPath),
      fs.dirs.contains (outputPath.getD (pyWithSuffix image "md")).dir = true →
      baseSaveMarkdown convert fs image outputPath =
        Except.ok (outputPath.getD (pyWithSuffix image "md"),
          FS.mk fs.dirs (assocSet fs.files
            (outputPath.getD (pyWithSuffix image "md")) (convert image))) := by
  intro convert fs image outputPath h
  have h2 : (outputPath.getD (pyWithSuffix image "md")).dir ∈ fs.dirs := by
    simpa using h
  simp [baseSaveMarkdown, writeText, h2, Except.map]

/-- Witness for `c4_save_markdown`: the default output path `img.md` lands
in the existing root directory. -/
theorem c4_save_markdown_witness :
    sampleFS.dirs.contains
      ((none : Option FPath).getD (pyWithSuffix sampleImage "md")).dir = true ∧
    baseSaveMarkdown (fun _ => "# Test Content") sampleFS sampleImage none =
      Except.ok (pyWithSuffix sampleImage "md",
        FS.mk sampleFS.dirs (assocSet sampleFS.files
          (pyWithSuffix sampleImage "md") "# Test Content")) :=
  ⟨by decide,
   c4_save_markdown (fun _ => "# Test Content") sampleFS sampleImage none
     (by decide)⟩

/-- Claim C8 (confirmed): for an OpenAI model in the o4- family, the stored
sampling temperature is clamped to 1, the override warning fires exactly
when the caller's requested temperature differs from 1, and the request's
parameter list uses max_completion_tokens as its only token/temperature
entry (no max_tokens, no temperature parameter). -/
theorem c8_o4_handling :
    ∀ (provider model : String) (maxTokens : ℚ)
      (maxCompletionTokens : Option ℚ) (temperature : ℚ)
      (kwargs : List (String × ℚ)),
      pyLower provider = "openai" →
      pyStartsWith model "o4-" = true →
      (llmInit provider model maxTokens maxCompletionTokens
        temperature).temperature = 1 ∧
      ((llmInit provider model maxTokens maxCompletionTokens
        temperature).warned = true ↔ temperature ≠ 1) ∧
      (llmTokenParams (llmInit provider model maxTokens maxCompletionTokens
        temperature) kwargs).map (fun f => f.1) = ["max_completion_tokens"] := by
  intro provider model maxTokens maxCompletionTokens temperature kwargs
    hprov hmodel
  refine ⟨?_, ?_, ?_⟩
  · simp [llmInit, hprov, hmodel]
  · simp [llmInit, hprov, hmodel, bne_iff_ne]
  · simp [llmTokenParams, llmInit, hmodel]

/-- Witness for `c8_o4_handling` at an o4- model with temperature 0.2. -/
theorem c8_o4_handling_witness :
    pyLower "openai" = "openai" ∧
    pyStartsWith "o4-mini" "o4-" = true ∧
    ((llmInit "openai" "o4-mini" 4000 none (2/10)).temperature = 1 ∧
     ((llmInit "openai" "o4-mini" 4000 none (2/10)).warned = true ↔
       (2/10 : ℚ) ≠ 1) ∧
     (llmTokenParams (llmInit "openai" "o4-mini" 4000 none (2/10)) []).map
       (fun f => f.1) = ["max_completion_tokens"]) :=
  ⟨by decide, by decide,
   c8_o4_handling "openai" "o4-mini" 4000 none (2/10) [] (by decide)
     (by decide)⟩

/-- Lookup misses when no entry has the key. -/
theorem assocGet_eq_none {α β : Type} [DecidableEq α]
    {l : List (α × β)} {k : α} (h : ∀ f ∈ l, f.1 ≠ k) :
    assocGet l k = none := by
  simp only [assocGet, Option.map_eq_none', List.find?_eq_none]
  intro f hf
  simpa using h f hf

/-- C3 counterexample: with the Azure SDK absent, looking up the built-in
conditional key azure raises the ImportError install-guidance message, not
the not-found ValueError that lists the registered keys. -/
theorem c3_counterexample :
    getConverter noBackends (builtinConverters noBackends) "azure" =
      Except.error (FactoryError.importErr azureInstallMsg) ∧
    FactoryError.importErr azureInstallMsg ≠
      FactoryError.valueErr
        (unknownConverterMsg "azure" (builtinConverters noBackends)) := by
  exact ⟨rfl, by decide⟩

/-- Claim C3 (amended): for every string key that is neither registered nor
one of the four conditional backend names, `get_converter` raises the
not-found ValueError whose message lists every currently registered key; for
the conditional names with their SDK absent it instead raises an ImportError
with install guidance. -/
theorem c3_unknown_key :
    (∀ (c : FactoryConfig) (registry : List (String × ConvClass))
      (key : String),
      (pyLower key) ∉ registry.map (fun f => f.1) →
      (pyLower key) ∉ (["azure", "llm", "anthropic", "gemini"] : List String) →
      getConverter c registry key =
        Except.error (FactoryError.valueErr
          (unknownConverterMsg (pyLower key) registry))) ∧
    (∀ (c : FactoryConfig) (registry : List (String × ConvClass))
      (key : String),
      (pyLower key) = "azure" → c.azureAvailable = false →
      getConverter c registry key =
        Except.error (FactoryError.importErr azureInstallMsg)) ∧
    (∀ (c : FactoryConfig) (registry : List (String × ConvClass))
      (key : String),
      (pyLower key) = "llm" → c.llmAvailable = false →
      getConverter c registry key =
        Except.error (FactoryError.importErr llmInstallMsg)) ∧
    (∀ (c : FactoryConfig) (registry : List (String × ConvClass))
      (key : String),
      (pyLower key) = "anthropic" → c.anthropicAvailable = false →
      getConverter c registry key =
        Except.error (FactoryError.importErr anthropicInstallMsg)) ∧
    (∀ (c : FactoryConfig) (registry : List (String × ConvClass))
      (key : String),
      (pyLower key) = "gemini" → c.geminiAvailable = false →
      getConverter c registry key =
        Except.error (FactoryError.importErr geminiInstallMsg)) := by
  refine ⟨?_, ?_, ?_, ?_, ?_⟩
  · intro c registry key hreg hmem
    have h1 : (pyLower key) ≠ "azure" := fun h => hmem (by simp [h])
    have h2 : (pyLower key) ≠ "llm" := fun h => hmem (by simp [h])
    have h3 : (pyLower key) ≠ "anthropic" := fun h => hmem (by simp [h])
    have h4 : (pyLower key) ≠ "gemini" := fun h => hmem (by simp [h])
    have hn : assocGet registry (pyLower key) = none := by
      apply assocGet_eq_none
      intro f hf he
      exact hreg (List.mem_map.mpr ⟨f, hf, he⟩)
    simp [getConverter, h1, h2, h3, h4, hn]
  · intro c registry key hk ha
    simp [getConverter, hk, ha]
  · intro c registry key hk ha
    simp [getConverter, hk, ha]
  · intro c registry key hk ha
    simp [getConverter, hk, ha]
  · intro c registry key hk ha
    simp [getConverter, hk, ha]

/-- Witness for `c3_unknown_key` at an unknown key and at each of the four
conditional names without its SDK. -/
theorem c3_unknown_key_witness :
    (pyLower "bogus") ∉
      (builtinConverters noBackends).map (fun f => f.1) ∧
    (pyLower "bogus") ∉
      (["azure", "llm", "anthropic", "gemini"] : List String) ∧
    getConverter noBackends (builtinConverters noBackends) "bogus" =
      Except.error (FactoryError.valueErr
        (unknownConverterMsg (pyLower "bogus")
          (builtinConverters noBackends))) ∧
    getConverter noBackends (builtinConverters noBackends) "AZURE" =
      Except.error (FactoryError.importErr azureInstallMsg) ∧
    getConverter noBackends (builtinConverters noBackends) "llm" =
      Except.error (FactoryError.importErr llmInstallMsg) ∧
    getConverter noBackends (builtinConverters noBackends) "anthropic" =
      Except.error (FactoryError.importErr anthropicInstallMsg) ∧
    getConverter noBackends (builtinConverters noBackends) "Gemini" =
      Except.error (FactoryError.importErr geminiInstallMsg) :=
  ⟨by decide, by decide,
   c3_unknown_key.1 noBackends (builtinConverters noBackends) "bogus"
     (by decide) (by decide),
   c3_unknown_key.2.1 noBackends (builtinConverters noBackends) "AZURE"
     (by decide) (by decide),
   c3_unknown_key.2.2.1 noBackends (builtinConverters noBackends) "llm"
     (by decide) (by decide),
   c3_unknown_key.2.2.2.1 noBackends (builtinConverters noBackends)
     "anthropic" (by decide) (by decide),
   c3_unknown_key.2.2.2.2 noBackends (builtinConverters noBackends)
     "Gemini" (by decide) (by decide)⟩

/-- C7 counterexample: for a PNG image, extension-based resolution (as the
Anthropic/Gemini converters perform) yields image/png, but the OpenAI
converter's request attaches the hardcoded image/jpeg data URL, so the
attached media type is not resolved from the extension. -/
theorem c7_counterexample :
    mediaTypeFromExt sampleImage = "image/png" ∧
    anthropicMediaType (fun _ => none) sampleImage = "image/png" ∧
    llmImageUrl "QUJD" = "data:image/jpeg;base64,QUJD" ∧
    pyStartsWith (llmImageUrl "QUJD") "data:image/png;" = false := by
  exact ⟨by decide, by decide, rfl, by decide⟩

/-- Claim C7 (amended): the Anthropic and Gemini converters resolve the
media type from the image file's extension (mimetype guess first, then the
extension switch) with image/png as the fallback default; the OpenAI LLM
converter instead always attaches a hardcoded image/jpeg data URL,
independent of the extension. -/
theorem c7_media_type :
    (∀ guessType p m, guessType p = some m →
      anthropicMediaType guessType p = m) ∧
    (∀ guessType p, guessType p = none →
      anthropicMediaType guessType p = mediaTypeFromExt p) ∧
    (∀ guessType p m, guessType p = some m →
      geminiMediaType guessType p = m) ∧
    (∀ guessType p, guessType p = none →
      geminiMediaType guessType p = mediaTypeFromExt p) ∧
    (∀ p, pyLower (pySuffix p) ∉
      ([".png", ".jpg", ".jpeg", ".gif", ".webp"] : List String) →
      mediaTypeFromExt p = "image/png") ∧
    (∀ base64Image,
      llmImageUrl base64Image = "data:image/jpeg;base64," ++ base64Image) := by
  refine ⟨?_, ?_, ?_, ?_, ?_, fun _ => rfl⟩
  · intro g p m h; simp [anthropicMediaType, h]
  · intro g p h; simp [anthropicMediaType, h]
  · intro g p m h; simp [geminiMediaType, h]
  · intro g p h; simp [geminiMediaType, h]
  · intro p hmem
    have e1 : pyLower (pySuffix p) ≠ ".png" := fun h => hmem (by simp [h])
    have e2 : pyLower (pySuffix p) ≠ ".jpg" := fun h => hmem (by simp [h])
    have e3 : pyLower (pySuffix p) ≠ ".jpeg" := fun h => hmem (by simp [h])
    have e4 : pyLower (pySuffix p) ≠ ".gif" := fun h => hmem (by simp [h])
    have e5 : pyLower (pySuffix p) ≠ ".webp" := fun h => hmem (by simp [h])
    simp [mediaTypeFromExt, e1, e2, e3, e4, e5]

/-- Witness for `c7_media_type`: guessing fails on a tiff path, which falls
through the extension switch to the PNG default. -/
theorem c7_media_type_witness :
    ((fun _ => none : FPath → Option String)
      (FPath.mk [] "scan" "tiff") = none) ∧
    anthropicMediaType (fun _ => none) (FPath.mk [] "scan" "tiff") =
      mediaTypeFromExt (FPath.mk [] "scan" "tiff") ∧
    pyLower (pySuffix (FPath.mk [] "scan" "tiff")) ∉
      ([".png", ".jpg", ".jpeg", ".gif", ".webp"] : List String) ∧
    mediaTypeFromExt (FPath.mk [] "scan" "tiff") = "image/png" :=
  ⟨rfl,
   c7_media_type.2.1 (fun _ => none) (FPath.mk [] "scan" "tiff") rfl,
   by decide,
   c7_media_type.2.2.2.2.1 (FPath.mk [] "scan" "tiff") (by decide)⟩

/-- Membership in the strings of a JSON object: either a key of some field
or a string of some field's value. -/
theorem mem_jsonStringsObj {s : String} {l : List (String × Json)} :
    s ∈ jsonStringsObj l ↔ ∃ f ∈ l, s = f.1 ∨ s ∈ jsonStrings f.2 := by
  induction l with
  | nil => simp [jsonStringsObj]
  | cons f l ih =>
    simp only [jsonStringsObj, List.mem_cons, List.mem_append, ih]
    constructor
    · rintro (rfl | h | ⟨g, hg, hs⟩)
      · exact ⟨f, Or.inl rfl, Or.inl rfl⟩
      · exact ⟨f, Or.inl rfl, Or.inr h⟩
      · exact ⟨g, Or.inr hg, hs⟩
    · rintro ⟨g, (rfl | hg), hs⟩
      · rcases hs with rfl | hs
        · exact Or.inl rfl
        · exact Or.inr (Or.inl hs)
      · exact Or.inr (Or.inr ⟨g, hg, hs⟩)

/-- Every entry of a dict after an update comes from the original dict or is
the updated binding. -/
theorem mem_assocSet {α β : Type} [DecidableEq α] {l : List (α × β)}
    {k : α} {v : β} {f : α × β} (h : f ∈ assocSet l k v) :
    f ∈ l ∨ f = (k, v) := by
  unfold assocSet at h
  split at h
  · rcases List.mem_map.mp h with ⟨g, hg, he⟩
    by_cases hk : g.1 = k
    · rw [if_pos hk] at he
      exact Or.inr he.symm
    · rw [if_neg hk] at he
      exact Or.inl (he ▸ hg)
  · rcases List.mem_append.mp h with h | h
    · exact Or.inl h
    · simp only [List.mem_singleton] at h
      exact Or.inr h

/-- Every entry surviving the credential filter comes from the original map
and is not the api_key binding. -/
theorem mem_filterApiKey {params : List (String × Json)} {f : String × Json}
    (h : f ∈ filterApiKey params) : f ∈ params ∧ f.1 ≠ "api_key" := by
  rw [filterApiKey, List.mem_filter] at h
  exact ⟨h.1, by simpa using h.2⟩

/-- Strings of the serialized system-info map are its keys and values. -/
theorem mem_sysInfoStrings {s : String} {si : List (String × String)}
    (h : s ∈ jsonStringsObj (si.map (fun f => (f.1, Json.str f.2)))) :
    ∃ f ∈ si, s = f.1 ∨ s = f.2 := by
  rw [mem_jsonStringsObj] at h
  rcases h with ⟨g, hg, hs⟩
  rcases List.mem_map.mp hg with ⟨f, hf, rfl⟩
  refine ⟨f, hf, ?_⟩
  simpa [jsonStrings] using hs

/-- Strings of the recorded OpenAI/Anthropic/Gemini conversion parameters:
either from a surviving (non-api_key) entry, or the prompt key, or the
prompt text. -/
theorem llmSafeParams_strings {s prompt : String}
    {params : List (String × Json)}
    (h : s ∈ jsonStringsObj (llmSafeParams params prompt)) :
    (∃ f ∈ params, f.1 ≠ "api_key" ∧ (s = f.1 ∨ s ∈ jsonStrings f.2)) ∨
      s = "prompt" ∨ s = prompt := by
  rw [mem_jsonStringsObj] at h
  rcases h with ⟨f, hf, hs⟩
  rcases mem_assocSet hf with hf | rfl
  · obtain ⟨hp, hne⟩ := mem_filterApiKey hf
    exact Or.inl ⟨f, hp, hne, hs⟩
  · right
    simpa [jsonStrings] using hs

/-- Strings of the recorded Azure conversion parameters: from a surviving
(non-api_key) entry, either verbatim or through the endpoint mask. -/
theorem azureSafeParams_strings {s : String} {maskUrl : String → String}
    {params : List (String × Json)}
    (h : s ∈ jsonStringsObj (azureSafeParams maskUrl params)) :
    ∃ f ∈ params, f.1 ≠ "api_key" ∧
      (s = f.1 ∨ s ∈ jsonStrings f.2 ∨
        ∃ e, f.2 = Json.str e ∧ s = maskUrl e) := by
  simp only [azureSafeParams] at h
  split at h
  · rw [mem_jsonStringsObj] at h
    rcases h with ⟨g, hg, hs⟩
    rcases List.mem_map.mp hg with ⟨g0, hf, he⟩
    obtain ⟨k1, v1⟩ := g0
    obtain ⟨hp, hne⟩ := mem_filterApiKey hf
    by_cases hk : (k1 == "endpoint") = true
    · rw [if_pos hk] at he
      subst he
      rcases hs with rfl | hs
      · exact ⟨(s, v1), hp, hne, Or.inl rfl⟩
      · cases v1 with
        | str e =>
          exact ⟨(k1, Json.str e), hp, hne,
            Or.inr (Or.inr ⟨e, rfl, by simpa [jsonStrings] using hs⟩)⟩
        | null => exact ⟨(k1, Json.null), hp, hne, Or.inr (Or.inl hs)⟩
        | bool b => exact ⟨(k1, Json.bool b), hp, hne, Or.inr (Or.inl hs)⟩
        | num n => exact ⟨(k1, Json.num n), hp, hne, Or.inr (Or.inl hs)⟩
        | arr a => exact ⟨(k1, Json.arr a), hp, hne, Or.inr (Or.inl hs)⟩
        | obj o => exact ⟨(k1, Json.obj o), hp, hne, Or.inr (Or.inl hs)⟩
    · rw [if_neg hk] at he
      subst he
      exact ⟨(k1, v1), hp, hne, hs.imp id Or.inl⟩
  · rw [mem_jsonStringsObj] at h
    rcases h with ⟨f, hf, hs⟩
    obtain ⟨hp, hne⟩ := mem_filterApiKey hf
    exact ⟨f, hp, hne, hs.imp id Or.inl⟩

/-- Every key of the recorded Azure conversion parameters is a non-api_key
key of the original map (the endpoint mask preserves keys). -/
theorem azureSafeParams_keys {maskUrl : String → String}
    {params : List (String × Json)} {f : String × Json}
    (h : f ∈ azureSafeParams maskUrl params) : f.1 ≠ "api_key" := by
  simp only [azureSafeParams] at h
  split at h
  · rcases List.mem_map.mp h with ⟨g, hg, he⟩
    have hne := (mem_filterApiKey hg).2
    by_cases hk : (g.1 == "endpoint") = true
    · rw [if_pos hk] at he
      subst he
      exact hne
    · rw [if_neg hk] at he
      subst he
      exact hne
  · exact (mem_filterApiKey h).2

/-- Claim C1 (confirmed): for every backend, the api_key key is removed from
the recorded conversion parameters before serialization, and consequently —
whenever the credential value reaches the builder only as the api_key
binding (and the mask, prompt, model and system strings are free of it) —
the literal credential value occurs nowhere in the serialized provenance
JSON document. -/
theorem c1_credential_filtered :
    (∀ params prompt,
      Json.hasKey (Json.obj (llmSafeParams params prompt)) "api_key" = false) ∧
    (∀ maskUrl params,
      Json.hasKey (Json.obj (azureSafeParams maskUrl params)) "api_key" = false) ∧
    (∀ cred timestamp model modelVersion provider systemInfo params prompt,
      noCredIn cred provFixedLLM →
      ¬ strOccurs cred timestamp →
      ¬ strOccurs cred model →
      credSafeOpt cred modelVersion →
      ¬ strOccurs cred (pyCapitalize provider) →
      credSafeSysInfo cred systemInfo →
      credSafeParams cred params →
      ¬ strOccurs cred prompt →
      credAbsent cred (createProvenanceLLM timestamp model modelVersion
        provider systemInfo params prompt)) ∧
    (∀ cred timestamp model modelVersion requestId systemInfo params prompt,
      noCredIn cred provFixedAnthropic →
      ¬ strOccurs cred timestamp →
      ¬ strOccurs cred model →
      credSafeOpt cred modelVersion →
      credSafeOpt cred requestId →
      credSafeSysInfo cred systemInfo →
      credSafeParams cred params →
      ¬ strOccurs cred prompt →
      credAbsent cred (createProvenanceAnthropic timestamp model
        modelVersion requestId systemInfo params prompt)) ∧
    (∀ cred timestamp model modelVersion requestId systemInfo params prompt,
      noCredIn cred provFixedGemini →
      ¬ strOccurs cred timestamp →
      ¬ strOccurs cred model →
      credSafeOpt cred modelVersion →
      credSafeOpt cred requestId →
      credSafeSysInfo cred systemInfo →
      credSafeParams cred params →
      ¬ strOccurs cred prompt →
      credAbsent cred (createProvenanceGemini timestamp model
        modelVersion requestId systemInfo params prompt)) ∧
    (∀ cred timestamp modelId apiVersion systemInfo maskUrl params,
      noCredIn cred provFixedAzure →
      ¬ strOccurs cred timestamp →
      ¬ strOccurs cred modelId →
      ¬ strOccurs cred apiVersion →
      credSafeSysInfo cred systemInfo →
      credSafeParams cred params →
      (∀ u, ¬ strOccurs cred u → ¬ strOccurs cred (maskUrl u)) →
      credAbsent cred (createProvenanceAzure timestamp modelId apiVersion
        systemInfo maskUrl params)) := by
  refine ⟨?_, ?_, ?_, ?_, ?_, ?_⟩
  · intro params prompt
    simp only [Json.hasKey, List.any_eq_false, decide_eq_true_eq]
    intro f hf
    rcases mem_assocSet hf with hf | rfl
    · exact (mem_filterApiKey hf).2
    · simp
  · intro maskUrl params
    simp only [Json.hasKey, List.any_eq_false, decide_eq_true_eq]
    intro f hf
    exact azureSafeParams_keys hf
  · intro cred ts model mv provider si params prompt hfix hts hmodel hmv
      hprov hsi hparams hprompt s hs
    simp only [createProvenanceLLM, jsonStrings] at hs
    rw [mem_jsonStringsObj] at hs
    obtain ⟨f, hf, hsf⟩ := hs
    simp only [List.mem_cons, List.not_mem_nil, or_false] at hf
    rcases hf with rfl | rfl | rfl | rfl | rfl | rfl
    · rcases hsf with rfl | hsv
      · exact hfix _ (by simp [provFixedLLM])
      · simp only [jsonStrings, List.mem_singleton] at hsv
        subst hsv
        exact hts
    · rcases hsf with rfl | hsv
      · exact hfix _ (by simp [provFixedLLM])
      · simp only [jsonStrings, List.mem_singleton] at hsv
        subst hsv
        exact hmodel
    · rcases hsf with rfl | hsv
      · exact hfix _ (by simp [provFixedLLM])
      · cases mv with
        | none => simp [optStr, jsonStrings] at hsv
        | some v =>
          simp only [optStr, jsonStrings, List.mem_singleton] at hsv
          subst hsv
          exact hmv
    · rcases hsf with rfl | hsv
      · exact hfix _ (by simp [provFixedLLM])
      · simp only [jsonStrings, List.mem_singleton] at hsv
        subst hsv
        exact hprov
    · rcases hsf with rfl | hsv
      · exact hfix _ (by simp [provFixedLLM])
      · simp only [jsonStrings] at hsv
        obtain ⟨g, hg, hv⟩ := mem_sysInfoStrings hsv
        rcases hv with rfl | rfl
        · exact (hsi g hg).1
        · exact (hsi g hg).2
    · rcases hsf with rfl | hsv
      · exact hfix _ (by simp [provFixedLLM])
      · simp only [jsonStrings] at hsv
        rcases llmSafeParams_strings hsv with ⟨g, hg, hne, hv⟩ | rfl | rfl
        · rcases hv with rfl | hv
          · exact (hparams g hg hne).1
          · exact (hparams g hg hne).2 _ hv
        · exact hfix _ (by simp [provFixedLLM])
        · exact hprompt
  · intro cred ts model mv reqId si params prompt hfix hts hmodel hmv hreq
      hsi hparams hprompt s hs
    simp only [createProvenanceAnthropic, jsonStrings] at hs
    rw [mem_jsonStringsObj] at hs
    obtain ⟨f, hf, hsf⟩ := hs
    simp only [List.mem_cons, List.not_mem_nil, or_false] at hf
    rcases hf with rfl | rfl | rfl | rfl | rfl | rfl | rfl | rfl
    · rcases hsf with rfl | hsv
      · exact hfix _ (by simp [provFixedAnthropic])
      · simp only [jsonStrings, List.mem_singleton] at hsv
        subst hsv
        exact hts
    · rcases hsf with rfl | hsv
      · exact hfix _ (by simp [provFixedAnthropic])
      · simp only [jsonStrings, List.mem_singleton] at hsv
        subst hsv
        exact hmodel
    · rcases hsf with rfl | hsv
      · exact hfix _ (by simp [provFixedAnthropic])
      · cases mv with
        | none => simp [optStr, jsonStrings] at hsv
        | some v =>
          simp only [optStr, jsonStrings, List.mem_singleton] at hsv
          subst hsv
          exact hmv
    · rcases hsf with rfl | hsv
      · exact hfix _ (by simp [provFixedAnthropic])
      · simp only [jsonStrings, List.mem_singleton] at hsv
        subst hsv
        exact hfix _ (by simp [provFixedAnthropic])
    · rcases hsf with rfl | hsv
      · exact hfix _ (by simp [provFixedAnthropic])
      · simp only [jsonStrings, List.mem_singleton] at hsv
        subst hsv
        exact hfix _ (by simp [provFixedAnthropic])
    · rcases hsf with rfl | hsv
      · exact hfix _ (by simp [provFixedAnthropic])
      · cases reqId with
        | none => simp [optStr, jsonStrings] at hsv
        | some v =>
          simp only [optStr, jsonStrings, List.mem_singleton] at hsv
          subst hsv
          exact hreq
    · rcases hsf with rfl | hsv
      · exact hfix _ (by simp [provFixedAnthropic])
      · simp only [jsonStrings] at hsv
        obtain ⟨g, hg, hv⟩ := mem_sysInfoStrings hsv
        rcases hv with rfl | rfl
        · exact (hsi g hg).1
        · exact (hsi g hg).2
    · rcases hsf with rfl | hsv
      · exact hfix _ (by simp [provFixedAnthropic])
      · simp only [jsonStrings] at hsv
        rcases llmSafeParams_strings hsv with ⟨g, hg, hne, hv⟩ | rfl | rfl
        · rcases hv with rfl | hv
          · exact (hparams g hg hne).1
          · exact (hparams g hg hne).2 _ hv
        · exact hfix _ (by simp [provFixedAnthropic])
        · exact hprompt
  · intro cred ts model mv reqId si params prompt hfix hts hmodel hmv hreq
      hsi hparams hprompt s hs
    simp only [createProvenanceGemini, jsonStrings] at hs
    rw [mem_jsonStringsObj] at hs
    obtain ⟨f, hf, hsf⟩ := hs
    simp only [List.mem_cons, List.not_mem_nil, or_false] at hf
    rcases hf with rfl | rfl | rfl | rfl | rfl | rfl | rfl | rfl
    · rcases hsf with rfl | hsv
      · exact hfix _ (by simp [provFixedGemini])
      · simp only [jsonStrings, List.mem_singleton] at hsv
        subst hsv
        exact hts
    · rcases hsf with rfl | hsv
      · exact hfix _ (by simp [provFixedGemini])
      · simp only [jsonStrings, List.mem_singleton] at hsv
        subst hsv
        exact hmodel
    · rcases hsf with rfl | hsv
      · exact hfix _ (by simp [provFixedGemini])
      · cases mv with
        | none => simp [optStr, jsonStrings] at hsv
        | some v =>
          simp only [optStr, jsonStrings, List.mem_singleton] at hsv
          subst hsv
          exact hmv
    · rcases hsf with rfl | hsv
      · exact hfix _ (by simp [provFixedGemini])
      · simp only [jsonStrings, List.mem_singleton] at hsv
        subst hsv
        exact hfix _ (by simp [provFixedGemini])
    · rcases hsf with rfl | hsv
      · exact hfix _ (by simp [provFixedGemini])
      · simp only [jsonStrings, List.mem_singleton] at hsv
        subst hsv
        exact hfix _ (by simp [provFixedGemini])
    · rcases hsf with rfl | hsv
      · exact hfix _ (by simp [provFixedGemini])
      · cases reqId with
        | none => simp [optStr, jsonStrings] at hsv
        | some v =>
          simp only [optStr, jsonStrings, List.mem_singleton] at hsv
          subst hsv
          exact hreq
    · rcases hsf with rfl | hsv
      · exact hfix _ (by simp [provFixedGemini])
      · simp only [jsonStrings] at hsv
        obtain ⟨g, hg, hv⟩ := mem_sysInfoStrings hsv
        rcases hv with rfl | rfl
        · exact (hsi g hg).1
        · exact (hsi g hg).2
    · rcases hsf with rfl | hsv
      · exact hfix _ (by simp [provFixedGemini])
      · simp only [jsonStrings] at hsv
        rcases llmSafeParams_strings hsv with ⟨g, hg, hne, hv⟩ | rfl | rfl
        · rcases hv with rfl | hv
          · exact (hparams g hg hne).1
          · exact (hparams g hg hne).2 _ hv
        · exact hfix _ (by simp [provFixedGemini])
        · exact hprompt
  · intro cred ts modelId apiVersion si maskUrl params hfix hts hmid hav
      hsi hparams hmask s hs
    simp only [createProvenanceAzure, jsonStrings] at hs
    rw [mem_jsonStringsObj] at hs
    obtain ⟨f, hf, hsf⟩ := hs
    simp only [List.mem_cons, List.not_mem_nil, or_false] at hf
    rcases hf with rfl | rfl | rfl | rfl | rfl
    · rcases hsf with rfl | hsv
      · exact hfix _ (by simp [provFixedAzure])
      · simp only [jsonStrings, List.mem_singleton] at hsv
        subst hsv
        exact hts
    · rcases hsf with rfl | hsv
      · exact hfix _ (by simp [provFixedAzure])
      · simp only [jsonStrings, List.mem_singleton] at hsv
        subst hsv
        exact hmid
    · rcases hsf with rfl | hsv
      · exact hfix _ (by simp [provFixedAzure])
      · simp only [jsonStrings, List.mem_singleton] at hsv
        subst hsv
        exact hav
    · rcases hsf with rfl | hsv
      · exact hfix _ (by simp [provFixedAzure])
      · simp only [jsonStrings] at hsv
        obtain ⟨g, hg, hv⟩ := mem_sysInfoStrings hsv
        rcases hv with rfl | rfl
        · exact (hsi g hg).1
        · exact (hsi g hg).2
    · rcases hsf with rfl | hsv
      · exact hfix _ (by simp [provFixedAzure])
      · simp only [jsonStrings] at hsv
        obtain ⟨g, hg, hne, hv⟩ := azureSafeParams_strings hsv
        rcases hv with rfl | hv | ⟨e, hge, rfl⟩
        · exact (hparams g hg hne).1
        · exact (hparams g hg hne).2 _ hv
        · refine hmask e ?_
          have h2 := (hparams g hg hne).2
          rw [hge] at h2
          exact h2 e (by simp [jsonStrings])

/-- Witness for `c1_credential_filtered` at a concrete credential and
parameter map carrying the credential under api_key. -/
theorem c1_credential_filtered_witness :
    Json.hasKey (Json.obj (llmSafeParams
      [("api_key", Json.str "sk-secret-789"), ("model", Json.str "gpt-4o")]
      "Convert this image.")) "api_key" = false ∧
    credAbsent "sk-secret-789" (createProvenanceLLM "2025-05-01T10:00:00"
      "gpt-4o" (some "2024-08-06") "openai" [("os", "Linux")]
      [("api_key", Json.str "sk-secret-789"), ("model", Json.str "gpt-4o"),
       ("max_tokens", Json.num 4000)] "Convert this image.") ∧
    credAbsent "sk-secret-789" (createProvenanceAnthropic
      "2025-05-01T10:00:00" "claude-3-7-sonnet-20250219" (some "3.7")
      (some "msg-123") [("os", "Linux")]
      [("api_key", Json.str "sk-secret-789"),
       ("model", Json.str "claude-3-7-sonnet-20250219")]
      "Convert this image.") ∧
    credAbsent "sk-secret-789" (createProvenanceGemini
      "2025-05-01T10:00:00" "gemini-2.5-flash-preview-04-17" (some "2.5")
      none [("os", "Linux")]
      [("api_key", Json.str "sk-secret-789"),
       ("model", Json.str "gemini-2.5-flash-preview-04-17")]
      "Convert this image.") ∧
    credAbsent "sk-secret-789" (createProvenanceAzure "2025-05-01T10:00:00"
      "prebuilt-layout" "2024-11-30" [("os", "Linux")] id
      [("api_key", Json.str "sk-secret-789"),
       ("endpoint", Json.str "https://example.cognitiveservices.azure.com")]) :=
  ⟨c1_credential_filtered.1
     [("api_key", Json.str "sk-secret-789"), ("model", Json.str "gpt-4o")]
     "Convert this image.",
   c1_credential_filtered.2.2.1 "sk-secret-789" "2025-05-01T10:00:00"
     "gpt-4o" (some "2024-08-06") "openai" [("os", "Linux")]
     [("api_key", Json.str "sk-secret-789"), ("model", Json.str "gpt-4o"),
      ("max_tokens", Json.num 4000)] "Convert this image."
     (by decide) (by decide) (by decide) (by decide) (by decide) (by decide)
     (by decide) (by decide),
   c1_credential_filtered.2.2.2.1 "sk-secret-789" "2025-05-01T10:00:00"
     "claude-3-7-sonnet-20250219" (some "3.7") (some "msg-123")
     [("os", "Linux")]
     [("api_key", Json.str "sk-secret-789"),
      ("model", Json.str "claude-3-7-sonnet-20250219")]
     "Convert this image."
     (by decide) (by decide) (by decide) (by decide) (by decide) (by decide)
     (by decide) (by decide),
   c1_credential_filtered.2.2.2.2.1 "sk-secret-789" "2025-05-01T10:00:00"
     "gemini-2.5-flash-preview-04-17" (some "2.5") none [("os", "Linux")]
     [("api_key", Json.str "sk-secret-789"),
      ("model", Json.str "gemini-2.5-flash-preview-04-17")]
     "Convert this image."
     (by decide) (by decide) (by decide) (by decide) (by decide) (by decide)
     (by decide) (by decide),
   c1_credential_filtered.2.2.2.2.2 "sk-secret-789" "2025-05-01T10:00:00"
     "prebuilt-layout" "2024-11-30" [("os", "Linux")] id
     [("api_key", Json.str "sk-secret-789"),
      ("endpoint", Json.str "https://example.cognitiveservices.azure.com")]
     (by decide) (by decide) (by decide) (by decide) (by decide) (by decide)
     (fun _ hu => hu)⟩

end Image2md
